import Mathlib

/-!
Shallow embedding of the Loan-Management-System repository
(`app.py`, `twilio_config.py`) and verification of its specification.

Python floats are modelled as exact rationals (`ℚ`); the Python
`round(x, 2)` (round-half-to-even on the hundredths) is modelled by
`roundTo2`; a Python `ZeroDivisionError` is modelled by `Except.error`.
Database `DECIMAL(14,2)` currency columns are rationals that are integer
multiples of `1/100` (`IsCents`).
-/

namespace LoanMgmt

/-- Round a rational to the nearest integer, ties to even
(Python 3 `round` semantics on exact values). -/
def roundHalfEven (q : ℚ) : ℤ :=
  let f : ℤ := ⌊q⌋
  let frac : ℚ := q - f
  if frac < 1/2 then f
  else if 1/2 < frac then f + 1
  else if f % 2 = 0 then f else f + 1

/-- Python `round(q, 2)`: round to 2 decimal places, ties to even. -/
def roundTo2 (q : ℚ) : ℚ := (roundHalfEven (q * 100) : ℚ) / 100

/-- `q` is an exact number of cents (the value set of a `DECIMAL(14,2)`
database column). -/
def IsCents (q : ℚ) : Prop := ∃ c : ℤ, q = c / 100

/-- `app.py` lines 102-118, `calculate_emi(principal, annual_rate_percent,
term_months)`.  `r = annual_rate_percent / 12 / 100`; if `r == 0` return
`round(P / n, 2)` (Python raises `ZeroDivisionError` when `n == 0`);
otherwise return `round(P*r*(1+r)^n / ((1+r)^n - 1), 2)` (Python raises
`ZeroDivisionError` when the denominator is zero). -/
def calculate_emi (principal annual_rate_percent : ℚ) (term_months : ℤ) :
    Except String ℚ :=
  let P := principal
  let r := annual_rate_percent / 12 / 100
  let n := term_months
  if r = 0 then
    if n = 0 then Except.error "float division by zero"
    else Except.ok (roundTo2 (P / (n : ℚ)))
  else
    let numerator := P * r * (1 + r) ^ n
    let denominator := (1 + r) ^ n - 1
    if denominator = 0 then Except.error "float division by zero"
    else Except.ok (roundTo2 (numerator / denominator))

/-- The reference EMI algorithm of the spec (§4.1), written from the
words of the spec: monthly rate `r = R/12/100`; if `r == 0` the installment is
`round(P/n, 2)`; otherwise `round(P·r·(1+r)^n / ((1+r)^n − 1), 2)`. -/
def emiSpecAlgorithm (P R : ℚ) (n : ℤ) : ℚ :=
  let r := R / 12 / 100
  if r = 0 then roundTo2 (P / (n : ℚ))
  else roundTo2 (P * r * (1 + r) ^ n / ((1 + r) ^ n - 1))

/-- A row of the `users` table (`app.py` lines 60-69): id, name, role
(`admin` or `user`); the email and password hash play no role in the
claims below. -/
structure User where
  id : ℤ
  name : String
  role : String
deriving DecidableEq, Repr

/-- A row of the `loans` table (`app.py` lines 71-82). -/
structure Loan where
  id : ℤ
  borrower_id : ℤ
  principal : ℚ
  annual_rate : ℚ
  term_months : ℤ
  emi : ℚ
deriving DecidableEq, Repr

/-- A row of the `payments` table (`app.py` lines 84-93). -/
structure Payment where
  loan_id : ℤ
  amount : ℚ
  payment_date : String
deriving DecidableEq, Repr

/-- The relational store: `users`, `loans` and `payments` tables. -/
structure DB where
  users : List User
  loans : List Loan
  payments : List Payment
deriving DecidableEq, Repr

/-- `SELECT * FROM loans WHERE id = %s` (first match). -/
def DB.findLoan (db : DB) (loan_id : ℤ) : Option Loan :=
  db.loans.find? (fun l => l.id == loan_id)

/-- `SELECT ... FROM users WHERE id = %s` (first match); used for the
`JOIN users u ON l.borrower_id = u.id`. -/
def DB.findUser (db : DB) (user_id : ℤ) : Option User :=
  db.users.find? (fun u => u.id == user_id)

/-- `SELECT * FROM payments WHERE loan_id = %s` (in insertion order; the
`ORDER BY payment_date DESC` of `loan_view` only permutes this list and
is not modelled). -/
def DB.paymentsFor (db : DB) (loan_id : ℤ) : List Payment :=
  db.payments.filter (fun p => p.loan_id == loan_id)

/-- The balance aggregation snippet duplicated at `app.py` lines 290-292
and 430-432:
total_paid is the sum of the payment amounts (0 when there are none),
total_payable is emi times term_months, and
remaining is round(total_payable - total_paid, 2). -/
def balance_aggregate (emi : ℚ) (term_months : ℤ) (amounts : List ℚ) :
    ℚ × ℚ × ℚ :=
  let total_paid := amounts.sum
  let total_payable := emi * (term_months : ℚ)
  let remaining := roundTo2 (total_payable - total_paid)
  (total_paid, total_payable, remaining)

/-- The module-level configuration of `twilio_config.py` lines 26-42:
the three Twilio credentials (empty string = unset) and the
`sms_notifications_enabled` feature flag. -/
structure TwilioConfig where
  account_sid : String
  auth_token : String
  phone_number : String
  sms_notifications_enabled : Bool
deriving DecidableEq, Repr

/-- The outcome of the Twilio transport
(`client.messages.create(...)`, wrapped in `try/except` by both senders):
`.ok sid` is a delivered message with its SID, `.error e` is a raised
exception with message `e`. -/
abbrev Transport := Except String String

/-- `all([TWILIO_ACCOUNT_SID, TWILIO_AUTH_TOKEN, TWILIO_PHONE_NUMBER])`:
Python truthiness of strings is non-emptiness. -/
def TwilioConfig.credsPresent (cfg : TwilioConfig) : Bool :=
  cfg.account_sid != "" && cfg.auth_token != "" && cfg.phone_number != ""

/-- `twilio_config.py` lines 45-92, `send_loan_notification`.  The SMS body
(which is only sent, never returned) is abstracted away; the returned
`(success, message)` pair is modelled exactly.  The borrower/loan fields
are accepted so the signature matches the source, though only the
transport and configuration determine the result. -/
def send_loan_notification (cfg : TwilioConfig) (transport : Transport)
    (phone_number borrower_name : String) (principal annual_rate : ℚ)
    (term_months : ℤ) (emi : ℚ) : Bool × String :=
  if !cfg.sms_notifications_enabled then
    (true, "SMS notifications disabled (test mode)")
  else if !cfg.credsPresent then
    (false, "Twilio credentials not configured. Set TWILIO_ACCOUNT_SID, TWILIO_AUTH_TOKEN, and TWILIO_PHONE_NUMBER environment variables.")
  else
    match transport with
    | .ok sid => (true, "SMS sent successfully (SID: " ++ sid ++ ")")
    | .error e => (false, "Failed to send SMS: " ++ e)

/-- `twilio_config.py` lines 95-140, `send_payment_notification`; same
shape as `send_loan_notification` with a shorter missing-credentials
message. -/
def send_payment_notification (cfg : TwilioConfig) (transport : Transport)
    (phone_number borrower_name : String) (loan_id : ℤ)
    (amount remaining_balance : ℚ) : Bool × String :=
  if !cfg.sms_notifications_enabled then
    (true, "SMS notifications disabled (test mode)")
  else if !cfg.credsPresent then
    (false, "Twilio credentials not configured.")
  else
    match transport with
    | .ok sid => (true, "SMS sent successfully (SID: " ++ sid ++ ")")
    | .error e => (false, "Failed to send SMS: " ++ e)

/-- The template context rendered by `loan_view` (`app.py` line 295):
`loan` joined with the borrower name, the payments of the loan, the rounded
`total_paid`, the `remaining` balance, and the `user` value handed to the
template. -/
structure LoanViewPage where
  loan : Loan
  borrower_name : String
  payments : List Payment
  total_paid : ℚ
  remaining : ℚ
  user : Option User
deriving DecidableEq, Repr

/-- `app.py` lines 273-295, `loan_view(loan_id)`: fetch the loan joined
with its borrower (missing row → flash "Loan not found." and redirect,
modelled as `.error`), fetch its payments, aggregate the balance, render.
No authentication or ownership check occurs on the success path. -/
def loan_view (db : DB) (user : Option User) (loan_id : ℤ) :
    Except String LoanViewPage :=
  match db.findLoan loan_id with
  | none => Except.error "Loan not found."
  | some loan =>
    match db.findUser loan.borrower_id with
    | none => Except.error "Loan not found."
    | some borrower =>
      let payments := db.paymentsFor loan_id
      let totals := balance_aggregate loan.emi loan.term_months
        (payments.map Payment.amount)
      Except.ok { loan := loan, borrower_name := borrower.name,
                  payments := payments, total_paid := roundTo2 totals.1,
                  remaining := totals.2.2, user := user }

/-- The data drawn into the PDF by `loan_download` (`app.py` lines
327-382): the loan fields with the borrower name and the payment
rows.  The ReportLab drawing itself is abstracted to this content. -/
structure StatementDoc where
  loan : Loan
  borrower_name : String
  payments : List Payment
deriving DecidableEq, Repr

/-- Outcome of `loan_download`: a redirect with a flash message, or a
served PDF attachment. -/
inductive DownloadResult
  | redirect (flash : String)
  | file (doc : StatementDoc)
deriving DecidableEq, Repr

/-- `app.py` lines 298-388, `loan_download(loan_id)`: login required,
loan fetched with borrower join, then the authorization check of lines
317-321 (deny when the borrower id differs from the session user id and
the role is not admin); otherwise the statement PDF is built and served. -/
def loan_download (db : DB) (user : Option User) (loan_id : ℤ) :
    DownloadResult :=
  match user with
  | none => .redirect "Please log in to download loan details."
  | some u =>
    match db.findLoan loan_id with
    | none => .redirect "Loan not found."
    | some loan =>
      match db.findUser loan.borrower_id with
      | none => .redirect "Loan not found."
      | some borrower =>
        if loan.borrower_id ≠ u.id ∧ u.role ≠ "admin" then
          .redirect "You are not authorized to download this loan."
        else
          .file ⟨loan, borrower.name, db.paymentsFor loan_id⟩

/-- Side effects of a ledger route, in program order: a committed insert
into `payments` or `loans` (`conn.commit()`), or a call to the
notification dispatcher. -/
inductive LedgerEvent
  | commitPayment (p : Payment)
  | commitLoan (l : Loan)
  | notify (phone : String)
deriving DecidableEq, Repr

/-- The POST form of `/payment-entry`; `none` models a missing or empty
field (Python truthiness at `app.py` line 402), and `phone_number` is
`""` when absent.  Numeric fields are modelled as already-parsed values
(MySQL coerces the submitted strings on insert). -/
structure PaymentForm where
  loan_id : Option ℤ
  amount : Option ℚ
  payment_date : Option String
  phone_number : String
deriving DecidableEq, Repr

/-- `app.py` lines 391-452, `payment_entry()`: require login, require the
three fields, fetch the loan, authorization check (lines 415-419), then
unconditionally `INSERT INTO payments` and `conn.commit()` (lines
421-423), recompute the balance over all payments of the loan (lines
427-432), and finally call the dispatcher when a phone number was given
(lines 436-447), the outcome selecting only the flash message.  Returns
the new store, the flash message, and the ordered side-effect trace. -/
def payment_entry (cfg : TwilioConfig) (transport : Transport) (db : DB)
    (user : Option User) (form : PaymentForm) :
    DB × String × List LedgerEvent :=
  match user with
  | none => (db, "Please login to enter payments.", [])
  | some u =>
    match form.loan_id, form.amount, form.payment_date with
    | some loan_id, some amount, some payment_date =>
      match db.findLoan loan_id with
      | none => (db, "Loan not found.", [])
      | some loan =>
        if loan.borrower_id ≠ u.id ∧ u.role ≠ "admin" then
          (db, "You are not authorized to add payment for this loan.", [])
        else
          let payment : Payment := ⟨loan_id, amount, payment_date⟩
          let db2 : DB := { db with payments := db.payments ++ [payment] }
          let totals := balance_aggregate loan.emi loan.term_months
            ((db2.paymentsFor loan_id).map Payment.amount)
          if form.phone_number ≠ "" then
            let result := send_payment_notification cfg transport
              form.phone_number u.name loan_id amount totals.2.2
            if result.1 then
              (db2, "Payment recorded. " ++ result.2,
               [.commitPayment payment, .notify form.phone_number])
            else
              (db2, "Payment recorded. (Note: " ++ result.2 ++ ")",
               [.commitPayment payment, .notify form.phone_number])
          else
            (db2, "Payment recorded.", [.commitPayment payment])
    | _, _, _ => (db, "All payment fields are required.", [])

/-- The POST form of `/create-loan`; numeric fields already parsed (a
non-numeric submission raises inside the float and int conversions of
`calculate_emi` and is caught the same way as a zero-term division). -/
structure LoanForm where
  principal : ℚ
  annual_rate : ℚ
  term_months : ℤ
  phone_number : String
deriving DecidableEq, Repr

/-- `AUTO_INCREMENT` id for a new `loans` row. -/
def DB.nextLoanId (db : DB) : ℤ := (db.loans.map Loan.id).foldr max 0 + 1

/-- `app.py` lines 224-270, `create_loan()` (POST path): require login,
compute the EMI (an exception flashes an error and aborts, nothing is
written), then `INSERT INTO loans` and `conn.commit()` (lines 242-250),
and call the dispatcher when a phone number was given (lines 253-265),
the outcome selecting only the flash message. -/
def create_loan (cfg : TwilioConfig) (transport : Transport) (db : DB)
    (user : Option User) (form : LoanForm) :
    DB × String × List LedgerEvent :=
  match user with
  | none => (db, "Please log in to create a loan.", [])
  | some u =>
    match calculate_emi form.principal form.annual_rate form.term_months with
    | .error e => (db, "Error calculating EMI: " ++ e, [])
    | .ok emi_value =>
      let loan : Loan := ⟨db.nextLoanId, u.id, form.principal,
        form.annual_rate, form.term_months, emi_value⟩
      let db2 : DB := { db with loans := db.loans ++ [loan] }
      if form.phone_number ≠ "" then
        let result := send_loan_notification cfg transport form.phone_number
          u.name form.principal form.annual_rate form.term_months emi_value
        if result.1 then
          (db2, "Loan created. EMI = " ++ toString emi_value ++ ". " ++ result.2,
           [.commitLoan loan, .notify form.phone_number])
        else
          (db2, "Loan created. EMI = " ++ toString emi_value ++ ". (Note: " ++
            result.2 ++ ")",
           [.commitLoan loan, .notify form.phone_number])
      else
        (db2, "Loan created. EMI = " ++ toString emi_value,
         [.commitLoan loan])

/-- The projection of a rendered loan page onto the loan data it shows:
loan fields, borrower name, payment history, total paid, remaining
balance (everything except the `user` value echoed to the template). -/
def LoanViewPage.loanData (pg : LoanViewPage) :
    Loan × String × List Payment × ℚ × ℚ :=
  (pg.loan, pg.borrower_name, pg.payments, pg.total_paid, pg.remaining)

/-! ### Supporting lemmas -/

theorem roundHalfEven_intCast (c : ℤ) : roundHalfEven (c : ℚ) = c := by
  simp [roundHalfEven, Int.floor_intCast]

theorem roundTo2_isCents_eq {q : ℚ} (h : IsCents q) : roundTo2 q = q := by
  obtain ⟨c, rfl⟩ := h
  have h100 : ((c : ℚ) / 100) * 100 = (c : ℚ) := by field_simp
  rw [roundTo2, h100, roundHalfEven_intCast]

theorem le_roundHalfEven (x : ℚ) : x - 1/2 ≤ (roundHalfEven x : ℚ) := by
  have hfl : ((⌊x⌋ : ℤ) : ℚ) ≤ x := Int.floor_le x
  have hfu : x < (⌊x⌋ : ℚ) + 1 := Int.lt_floor_add_one x
  simp only [roundHalfEven]
  split_ifs <;> push_cast <;> linarith

theorem roundHalfEven_le (x : ℚ) : (roundHalfEven x : ℚ) ≤ x + 1/2 := by
  have hfl : ((⌊x⌋ : ℤ) : ℚ) ≤ x := Int.floor_le x
  have hfu : x < (⌊x⌋ : ℚ) + 1 := Int.lt_floor_add_one x
  simp only [roundHalfEven]
  split_ifs with h1 h2 h3 <;> push_cast <;>
    simp only [not_lt] at * <;> linarith

theorem le_roundTo2 (q : ℚ) : q - 1/200 ≤ roundTo2 q := by
  have h := le_roundHalfEven (q * 100)
  rw [roundTo2]
  linarith

theorem roundTo2_le (q : ℚ) : roundTo2 q ≤ q + 1/200 := by
  have h := roundHalfEven_le (q * 100)
  rw [roundTo2]
  linarith

theorem roundTo2_nonneg {q : ℚ} (hq : 0 ≤ q) : 0 ≤ roundTo2 q := by
  have hfl : (0 : ℤ) ≤ ⌊q * 100⌋ := Int.floor_nonneg.mpr (by positivity)
  have key : (0 : ℤ) ≤ roundHalfEven (q * 100) := by
    simp only [roundHalfEven]
    split_ifs <;> omega
  rw [roundTo2]
  have hcast : (0 : ℚ) ≤ (roundHalfEven (q * 100) : ℚ) := by exact_mod_cast key
  have h100 : (0 : ℚ) ≤ 100 := by norm_num
  exact div_nonneg hcast h100

theorem IsCents.sub {a b : ℚ} (ha : IsCents a) (hb : IsCents b) :
    IsCents (a - b) := by
  obtain ⟨c, rfl⟩ := ha
  obtain ⟨d, rfl⟩ := hb
  exact ⟨c - d, by push_cast; ring⟩

theorem IsCents.intMul {a : ℚ} (ha : IsCents a) (k : ℤ) :
    IsCents (a * (k : ℚ)) := by
  obtain ⟨c, rfl⟩ := ha
  exact ⟨c * k, by push_cast; ring⟩

theorem IsCents.listSum {l : List ℚ} (h : ∀ a ∈ l, IsCents a) :
    IsCents l.sum := by
  induction l with
  | nil => exact ⟨0, by norm_num⟩
  | cons a l ih =>
    obtain ⟨c, hc⟩ := h a (List.mem_cons_self a l)
    obtain ⟨d, hd⟩ := ih (fun b hb => h b (List.mem_cons_of_mem a hb))
    exact ⟨c + d, by rw [List.sum_cons, hc, hd]; push_cast; ring⟩

/-- Annuity bound: for a non-negative rate `r`, `(1+r)^m - 1 ≤ m·r·(1+r)^m`.
This is the inequality that makes the EMI cover the principal. -/
theorem geom_sum_le_mul_pow {r : ℚ} (hr : 0 ≤ r) :
    ∀ m : ℕ, (1 + r) ^ m - 1 ≤ (m : ℚ) * r * (1 + r) ^ m := by
  intro m
  induction m with
  | zero => simp
  | succ k ih =>
    have h1 : (1 : ℚ) ≤ 1 + r := by linarith
    have hp : (0 : ℚ) ≤ (1 + r) ^ k := by positivity
    have hp1 : (1 : ℚ) ≤ (1 + r) ^ (k + 1) := one_le_pow₀ h1
    have step : (1 + r) ^ (k + 1) - 1 = (1 + r) * ((1 + r) ^ k - 1) + r := by
      ring
    have hmul : (1 + r) * ((1 + r) ^ k - 1) ≤
        (1 + r) * ((k : ℚ) * r * (1 + r) ^ k) :=
      mul_le_mul_of_nonneg_left ih (by linarith)
    have hr2 : r ≤ r * (1 + r) ^ (k + 1) := le_mul_of_one_le_right hr hp1
    have : (1 + r) ^ (k + 1) - 1 ≤ (k : ℚ) * r * (1 + r) ^ (k + 1) + r := by
      calc (1 + r) ^ (k + 1) - 1
          = (1 + r) * ((1 + r) ^ k - 1) + r := step
        _ ≤ (1 + r) * ((k : ℚ) * r * (1 + r) ^ k) + r := by linarith
        _ = (k : ℚ) * r * (1 + r) ^ (k + 1) + r := by ring
    calc (1 + r) ^ (k + 1) - 1
        ≤ (k : ℚ) * r * (1 + r) ^ (k + 1) + r := this
      _ ≤ (k : ℚ) * r * (1 + r) ^ (k + 1) + r * (1 + r) ^ (k + 1) := by
          linarith
      _ = ((k + 1 : ℕ) : ℚ) * r * (1 + r) ^ (k + 1) := by push_cast; ring

/-- For a positive rate and a term of at least one month the annuity
denominator `(1+r)^m - 1` is positive. -/
theorem one_lt_pow_of_pos {r : ℚ} (hr : 0 < r) {m : ℕ} (hm : 1 ≤ m) :
    1 < (1 + r) ^ m :=
  one_lt_pow₀ (by linarith) (by omega)

theorem zpow_toNat_of_nonneg (x : ℚ) {n : ℤ} (hn : 0 ≤ n) :
    x ^ n = x ^ n.toNat := by
  rw [← Int.toNat_of_nonneg hn, zpow_natCast, Int.toNat_of_nonneg hn]

/-! ### Claims -/

/-- C1: for every positive principal `P`, non-negative annual rate `R`
(percent) and term `n ≥ 1`, `calculate_emi P R n` succeeds and equals the
reference algorithm of the spec (`r = R/12/100`; `round(P/n, 2)` when `r = 0`,
`round(P·r·(1+r)^n / ((1+r)^n − 1), 2)` when `r > 0`); in particular
`calculate_emi 100000 10 12 = 8791.59`. -/
theorem C1_emi_matches_reference (P R : ℚ) (n : ℤ)
    (hP : 0 < P) (hR : 0 ≤ R) (hn : 1 ≤ n) :
    calculate_emi P R n = Except.ok (emiSpecAlgorithm P R n) ∧
    calculate_emi 100000 10 12 = Except.ok (879159/100) := by
  constructor
  · by_cases hr : R / 12 / 100 = 0
    · have hn0 : n ≠ 0 := by omega
      simp [calculate_emi, emiSpecAlgorithm, hr, hn0]
    · have hRpos : 0 < R := by
        rcases eq_or_lt_of_le hR with h | h
        · exact absurd (by rw [← h]; norm_num) hr
        · exact h
      have hrpos : 0 < R / 12 / 100 := by positivity
      have hden : (1 + R / 12 / 100) ^ n - 1 ≠ 0 := by
        have h0 : (0 : ℤ) ≤ n := by omega
        have hpow : (1 : ℚ) < (1 + R / 12 / 100) ^ n := by
          rw [zpow_toNat_of_nonneg _ h0]
          exact one_lt_pow_of_pos hrpos (by omega)
        linarith
      simp [calculate_emi, emiSpecAlgorithm, hr, hden]
  · simp only [calculate_emi, roundTo2, roundHalfEven]
    norm_num

theorem C1_emi_matches_reference_witness :
    calculate_emi 100000 10 12 = Except.ok (emiSpecAlgorithm 100000 10 12) ∧
    calculate_emi 100000 10 12 = Except.ok (879159/100) :=
  C1_emi_matches_reference 100000 10 12 (by norm_num) (by norm_num)
    (by norm_num)

/-- C2: for every principal and every annual rate, a zero term makes
`calculate_emi` signal the division-by-zero domain error — in the
zero-rate branch (`P / n` with `n = 0`) and in the positive-rate branch
(`(1+r)^0 − 1 = 0` in the denominator) alike; it never returns a value. -/
theorem C2_zero_term_domain_error (P R : ℚ) :
    calculate_emi P R 0 = Except.error "float division by zero" := by
  by_cases hr : R / 12 / 100 = 0
  · simp [calculate_emi, hr]
  · simp [calculate_emi, hr, zpow_zero]

/-- C3 fails on the code as stated: with `P = 0.01, R = 0, n = 3` the
installment is `0.00`, which is not positive although `P > 0`; and with
`P = 100, R = 0.001, n = 3` the installment is `33.33`, whose product
with the term, `99.99`, is smaller than the principal `100` although
`R > 0` — rounding to cents loses up to half a cent per installment. -/
theorem C3_counterexample :
    calculate_emi (1/100) 0 3 = Except.ok 0 ∧
    ¬ (0 : ℚ) < 0 ∧
    calculate_emi 100 (1/1000) 3 = Except.ok (3333/100) ∧
    ¬ ((100 : ℚ) ≤ (3333/100) * 3) := by
  refine ⟨?_, by norm_num, ?_, by norm_num⟩ <;>
    (simp only [calculate_emi, roundTo2, roundHalfEven]; norm_num)

/-- C3 amended: for `P > 0`, `R ≥ 0`, `n ≥ 1` the installment returned by
`calculate_emi` is non-negative and finite; when `R > 0`,
`installment × n ≥ P − n·0.005` (the exact annuity installment covers
`P/n`, and rounding to cents moves it by at most half a cent); when
`R = 0` the installment is `round(P/n, 2)`, so `installment × n` equals
`P` up to that rounding; in particular
`calculate_emi 120000 0 24 = 5000.00` exactly. -/
theorem C3_amended_emi_bounds (P R : ℚ) (n : ℤ)
    (hP : 0 < P) (hR : 0 ≤ R) (hn : 1 ≤ n) :
    (∃ q, calculate_emi P R n = Except.ok q ∧ 0 ≤ q ∧
      (0 < R → P - (n : ℚ) / 200 ≤ q * (n : ℚ)) ∧
      (R = 0 → q = roundTo2 (P / (n : ℚ)))) ∧
    calculate_emi 120000 0 24 = Except.ok 5000 := by
  have hnq : (0 : ℚ) < (n : ℚ) := by exact_mod_cast (by omega : (0:ℤ) < n)
  constructor
  · by_cases hr : R / 12 / 100 = 0
    · have hR0 : R = 0 := by
        by_contra hne
        have : R / 12 / 100 ≠ 0 := by
          intro h
          exact hne (by field_simp at h; linarith)
        exact this hr
      refine ⟨roundTo2 (P / (n : ℚ)), ?_, ?_, ?_, fun _ => rfl⟩
      · have hn0 : n ≠ 0 := by omega
        simp [calculate_emi, hr, hn0]
      · exact roundTo2_nonneg (by positivity)
      · intro hRpos
        exact absurd hR0 (by linarith)
    · have hRpos : 0 < R := by
        rcases eq_or_lt_of_le hR with h | h
        · exact absurd (by rw [← h]; norm_num) hr
        · exact h
      set r := R / 12 / 100 with hrdef
      have hrpos : 0 < r := by rw [hrdef]; positivity
      have h0 : (0 : ℤ) ≤ n := by omega
      have hm1 : 1 ≤ n.toNat := by omega
      have hpow : (1 : ℚ) < (1 + r) ^ n := by
        rw [zpow_toNat_of_nonneg _ h0]
        exact one_lt_pow_of_pos hrpos hm1
      have hden : (1 + r) ^ n - 1 ≠ 0 := by linarith
      have hdenpos : (0 : ℚ) < (1 + r) ^ n - 1 := by linarith
      have hpowpos : (0 : ℚ) < (1 + r) ^ n := by linarith
      set e := P * r * (1 + r) ^ n / ((1 + r) ^ n - 1) with hedef
      have hepos : 0 < e := by
        rw [hedef]
        positivity
      have hcover : P ≤ e * (n : ℚ) := by
        have key : (1 + r) ^ n - 1 ≤ (n : ℚ) * r * (1 + r) ^ n := by
          have := geom_sum_le_mul_pow (le_of_lt hrpos) n.toNat
          rw [zpow_toNat_of_nonneg _ h0]
          have hcast : ((n.toNat : ℕ) : ℚ) = (n : ℚ) := by
            exact_mod_cast Int.toNat_of_nonneg h0
          rw [← hcast]
          exact this
        rw [hedef, div_mul_eq_mul_div, le_div_iff₀ hdenpos]
        calc P * ((1 + r) ^ n - 1) ≤ P * ((n : ℚ) * r * (1 + r) ^ n) :=
              mul_le_mul_of_nonneg_left key (le_of_lt hP)
          _ = P * r * (1 + r) ^ n * (n : ℚ) := by ring
      refine ⟨roundTo2 e, ?_, roundTo2_nonneg (le_of_lt hepos), ?_, ?_⟩
      · simp only [calculate_emi]
        rw [← hrdef, ← hedef]
        simp [hr, hden]
      · intro _
        have hlow : e - 1/200 ≤ roundTo2 e := le_roundTo2 e
        have : (e - 1/200) * (n : ℚ) ≤ roundTo2 e * (n : ℚ) :=
          mul_le_mul_of_nonneg_right hlow (le_of_lt hnq)
        nlinarith
      · intro hR0
        exact absurd hrpos (by rw [hrdef, hR0]; norm_num)
  · simp only [calculate_emi, roundTo2, roundHalfEven]
    norm_num

theorem C3_amended_emi_bounds_witness :
    (∃ q, calculate_emi 120000 0 24 = Except.ok q ∧ 0 ≤ q ∧
      (0 < (0 : ℚ) → (120000 : ℚ) - (24 : ℤ) / 200 ≤ q * ((24 : ℤ) : ℚ)) ∧
      ((0 : ℚ) = 0 → q = roundTo2 ((120000 : ℚ) / ((24 : ℤ) : ℚ)))) ∧
    calculate_emi 120000 0 24 = Except.ok 5000 :=
  C3_amended_emi_bounds 120000 0 24 (by norm_num) (by norm_num) (by norm_num)

/-- C4: for every installment, term and (possibly empty) list of payment
amounts — all currency values being exact cents, as the `DECIMAL(14,2)`
columns guarantee — the balance aggregation produces
`total_paid = Σ payments` (0 for the empty list),
`total_payable = installment × term` and
`remaining = total_payable − total_paid`, each equal to its own rounding
to 2 decimals; in particular installment `8791.59`, term 12, payments
`[8791.59, 8791.59]` yield `total_paid = 17583.18`,
`total_payable = 105499.08`, `remaining = 87915.90`. -/
theorem C4_balance_aggregation (emi : ℚ) (term : ℤ) (amounts : List ℚ)
    (hemi : IsCents emi) (hamts : ∀ a ∈ amounts, IsCents a) :
    balance_aggregate emi term amounts =
      (roundTo2 amounts.sum, roundTo2 (emi * (term : ℚ)),
       roundTo2 (emi * (term : ℚ) - amounts.sum)) ∧
    balance_aggregate emi term [] =
      (0, emi * (term : ℚ), emi * (term : ℚ)) ∧
    balance_aggregate (879159/100) 12 [879159/100, 879159/100] =
      (1758318/100, 10549908/100, 8791590/100) := by
  have hpay : IsCents (emi * (term : ℚ)) := hemi.intMul term
  have hsum : IsCents amounts.sum := IsCents.listSum hamts
  refine ⟨?_, ?_, ?_⟩
  · simp only [balance_aggregate]
    rw [roundTo2_isCents_eq hsum, roundTo2_isCents_eq hpay]
  · simp only [balance_aggregate, List.sum_nil, sub_zero]
    rw [roundTo2_isCents_eq hpay]
  · simp only [balance_aggregate, roundTo2, roundHalfEven, List.sum_cons,
      List.sum_nil]
    norm_num

theorem C4_balance_aggregation_witness :
    balance_aggregate (879159/100) 12 [879159/100, 879159/100] =
      (roundTo2 ([(879159:ℚ)/100, 879159/100].sum),
       roundTo2 ((879159/100 : ℚ) * ((12 : ℤ) : ℚ)),
       roundTo2 ((879159/100 : ℚ) * ((12 : ℤ) : ℚ) -
         [(879159:ℚ)/100, 879159/100].sum)) ∧
    balance_aggregate (879159/100) 12 [] =
      (0, (879159/100 : ℚ) * ((12 : ℤ) : ℚ),
       (879159/100 : ℚ) * ((12 : ℤ) : ℚ)) ∧
    balance_aggregate (879159/100) 12 [879159/100, 879159/100] =
      (1758318/100, 10549908/100, 8791590/100) :=
  C4_balance_aggregation (879159/100) 12 [879159/100, 879159/100]
    ⟨879159, by norm_num⟩
    (by
      intro a ha
      simp only [List.mem_cons, List.not_mem_nil, or_false] at ha
      rcases ha with h | h <;> exact ⟨879159, by rw [h]; norm_num⟩)

/-- C5: the balance aggregation is invariant under any permutation of the
payment amounts — `total_paid`, `total_payable` and `remaining` depend
only on the multiset of amounts, not on their order. -/
theorem C5_balance_permutation_invariant (emi : ℚ) (term : ℤ)
    (l1 l2 : List ℚ) (h : l1.Perm l2) :
    balance_aggregate emi term l1 = balance_aggregate emi term l2 := by
  simp only [balance_aggregate, h.sum_eq]

theorem C5_balance_permutation_invariant_witness :
    balance_aggregate 50 2 [10, 20] = balance_aggregate 50 2 [20, 10] :=
  C5_balance_permutation_invariant 50 2 [10, 20] [20, 10]
    (List.Perm.swap 20 10 [])

/-- C6: payment recording does not validate the amount against the
remaining balance.  For any cent-valued installment/payments whose sum
exceeds `total_payable` the aggregation reports `remaining < 0`; and for
any authorized user and any amount whatsoever (however large), the
payment-entry handler inserts the payment row and reports success —
overpayments and duplicates are persisted like any other payment. -/
theorem C6_overpayment_permitted (emi : ℚ) (term : ℤ) (amounts : List ℚ)
    (hemi : IsCents emi) (hamts : ∀ a ∈ amounts, IsCents a)
    (hover : emi * (term : ℚ) < amounts.sum)
    (cfg : TwilioConfig) (t : Transport) (db : DB) (u : User) (loan : Loan)
    (loan_id : ℤ) (amount : ℚ) (pd : String)
    (hfind : db.findLoan loan_id = some loan)
    (hauth : loan.borrower_id = u.id ∨ u.role = "admin") :
    (balance_aggregate emi term amounts).2.2 < 0 ∧
    (payment_entry cfg t db (some u)
        ⟨some loan_id, some amount, some pd, ""⟩).1.payments =
      db.payments ++ [⟨loan_id, amount, pd⟩] ∧
    (payment_entry cfg t db (some u)
        ⟨some loan_id, some amount, some pd, ""⟩).2.1 =
      "Payment recorded." := by
  have hdiff : IsCents (emi * (term : ℚ) - amounts.sum) :=
    (hemi.intMul term).sub (IsCents.listSum hamts)
  have hneg : emi * (term : ℚ) - amounts.sum < 0 := by linarith
  have hrem : (balance_aggregate emi term amounts).2.2 < 0 := by
    simp only [balance_aggregate]
    rw [roundTo2_isCents_eq hdiff]
    exact hneg
  have hnotdeny : ¬ (loan.borrower_id ≠ u.id ∧ u.role ≠ "admin") := by
    rcases hauth with h | h
    · exact fun hc => hc.1 h
    · exact fun hc => hc.2 h
  refine ⟨hrem, ?_, ?_⟩ <;>
    simp [payment_entry, hfind, hnotdeny]

/-- Concrete fixtures for witnesses: two borrowers, one loan owned by the
first (installment 50.00 over 2 months), no payments yet. -/
def aliceUser : User := ⟨1, "alice", "user"⟩

def bobUser : User := ⟨2, "bob", "user"⟩

def sampleLoan : Loan := ⟨1, 1, 100, 0, 2, 50⟩

def sampleDB : DB := ⟨[aliceUser, bobUser], [sampleLoan], []⟩

theorem C6_overpayment_permitted_witness :
    (balance_aggregate 50 2 [60, 60]).2.2 < 0 ∧
    (payment_entry ⟨"", "", "", true⟩ (Except.ok "sid") sampleDB
        (some aliceUser) ⟨some 1, some 60, some "2024-01-01", ""⟩).1.payments =
      sampleDB.payments ++ [⟨1, 60, "2024-01-01"⟩] ∧
    (payment_entry ⟨"", "", "", true⟩ (Except.ok "sid") sampleDB
        (some aliceUser) ⟨some 1, some 60, some "2024-01-01", ""⟩).2.1 =
      "Payment recorded." :=
  C6_overpayment_permitted 50 2 [60, 60] ⟨5000, by norm_num⟩
    (by
      intro a ha
      simp only [List.mem_cons, List.not_mem_nil, or_false] at ha
      rcases ha with h | h <;> exact ⟨6000, by rw [h]; norm_num⟩)
    (by norm_num)
    ⟨"", "", "", true⟩ (Except.ok "sid") sampleDB aliceUser sampleLoan
    1 60 "2024-01-01" rfl (Or.inl rfl)

/-- C7 fails on the code as stated: with notifications disabled, both
senders return `(True, "SMS notifications disabled (test mode)")` — the
first component is `true`, not the `false` the claim requires for the
disabled-feature mode. -/
theorem C7_counterexample :
    (send_loan_notification ⟨"", "", "", false⟩ (Except.error "boom")
        "+1555" "alice" 100000 10 12 (879159/100)).1 ≠ false ∧
    (send_payment_notification ⟨"", "", "", false⟩ (Except.error "boom")
        "+1555" "alice" 1 5000 95000).1 ≠ false := by
  constructor <;> simp [send_loan_notification, send_payment_notification]

/-- C7 amended: `send_loan_notification` and `send_payment_notification`
never raise — every input yields a `(success, message)` pair — and the
failure modes are captured as follows: missing Twilio configuration and
transport failure return `(false, reason)`, while the disabled feature
flag short-circuits to `(true, "SMS notifications disabled (test mode)")`
(success, not failure); a working transport returns `(true, message)`. -/
theorem C7_amended_notification (cfg : TwilioConfig) (t : Transport)
    (phone name : String) (P R : ℚ) (n : ℤ) (emi : ℚ) (lid : ℤ)
    (amt rem : ℚ) :
    (cfg.sms_notifications_enabled = false →
      send_loan_notification cfg t phone name P R n emi =
        (true, "SMS notifications disabled (test mode)") ∧
      send_payment_notification cfg t phone name lid amt rem =
        (true, "SMS notifications disabled (test mode)")) ∧
    (cfg.sms_notifications_enabled = true → cfg.credsPresent = false →
      (send_loan_notification cfg t phone name P R n emi).1 = false ∧
      (send_payment_notification cfg t phone name lid amt rem).1 = false) ∧
    (∀ e, cfg.sms_notifications_enabled = true → cfg.credsPresent = true →
      t = Except.error e →
      send_loan_notification cfg t phone name P R n emi =
        (false, "Failed to send SMS: " ++ e) ∧
      send_payment_notification cfg t phone name lid amt rem =
        (false, "Failed to send SMS: " ++ e)) ∧
    (∀ s, cfg.sms_notifications_enabled = true → cfg.credsPresent = true →
      t = Except.ok s →
      (send_loan_notification cfg t phone name P R n emi).1 = true ∧
      (send_payment_notification cfg t phone name lid amt rem).1 = true) := by
  refine ⟨fun hd => ?_, fun he hc => ?_, fun e he hc ht => ?_,
    fun s he hc ht => ?_⟩ <;>
    simp_all [send_loan_notification, send_payment_notification]

theorem C7_amended_notification_witness :
    ((⟨"", "", "", false⟩ : TwilioConfig).sms_notifications_enabled = false →
      send_loan_notification ⟨"", "", "", false⟩ (Except.error "boom")
          "+1555" "alice" 100000 10 12 (879159/100) =
        (true, "SMS notifications disabled (test mode)") ∧
      send_payment_notification ⟨"", "", "", false⟩ (Except.error "boom")
          "+1555" "alice" 1 5000 95000 =
        (true, "SMS notifications disabled (test mode)")) ∧
    ((⟨"", "", "", false⟩ : TwilioConfig).sms_notifications_enabled = true →
      (⟨"", "", "", false⟩ : TwilioConfig).credsPresent = false →
      (send_loan_notification ⟨"", "", "", false⟩ (Except.error "boom")
          "+1555" "alice" 100000 10 12 (879159/100)).1 = false ∧
      (send_payment_notification ⟨"", "", "", false⟩ (Except.error "boom")
          "+1555" "alice" 1 5000 95000).1 = false) ∧
    (∀ e, (⟨"", "", "", false⟩ : TwilioConfig).sms_notifications_enabled = true →
      (⟨"", "", "", false⟩ : TwilioConfig).credsPresent = true →
      (Except.error "boom" : Transport) = Except.error e →
      send_loan_notification ⟨"", "", "", false⟩ (Except.error "boom")
          "+1555" "alice" 100000 10 12 (879159/100) =
        (false, "Failed to send SMS: " ++ e) ∧
      send_payment_notification ⟨"", "", "", false⟩ (Except.error "boom")
          "+1555" "alice" 1 5000 95000 =
        (false, "Failed to send SMS: " ++ e)) ∧
    (∀ s, (⟨"", "", "", false⟩ : TwilioConfig).sms_notifications_enabled = true →
      (⟨"", "", "", false⟩ : TwilioConfig).credsPresent = true →
      (Except.error "boom" : Transport) = Except.ok s →
      (send_loan_notification ⟨"", "", "", false⟩ (Except.error "boom")
          "+1555" "alice" 100000 10 12 (879159/100)).1 = true ∧
      (send_payment_notification ⟨"", "", "", false⟩ (Except.error "boom")
          "+1555" "alice" 1 5000 95000).1 = true) :=
  C7_amended_notification ⟨"", "", "", false⟩ (Except.error "boom")
    "+1555" "alice" 100000 10 12 (879159/100) 1 5000 95000

/-- C8: a logged-in caller who neither owns the loan nor is an admin is
denied on both the payment-entry and the download operation: the handlers
return the denial flash messages, the store is unchanged, no side-effect
event is emitted, and no document is produced. -/
theorem C8_non_owner_denied (db : DB) (u b : User) (loan : Loan)
    (loan_id : ℤ) (cfg : TwilioConfig) (t : Transport) (amount : ℚ)
    (pd phone : String)
    (hfind : db.findLoan loan_id = some loan)
    (hb : db.findUser loan.borrower_id = some b)
    (hnotowner : loan.borrower_id ≠ u.id) (hnotadmin : u.role ≠ "admin") :
    payment_entry cfg t db (some u)
        ⟨some loan_id, some amount, some pd, phone⟩ =
      (db, "You are not authorized to add payment for this loan.", []) ∧
    loan_download db (some u) loan_id =
      DownloadResult.redirect "You are not authorized to download this loan." := by
  have hcond : loan.borrower_id ≠ u.id ∧ u.role ≠ "admin" :=
    ⟨hnotowner, hnotadmin⟩
  constructor
  · simp only [payment_entry, hfind]
    rw [if_pos hcond]
  · simp only [loan_download, hfind, hb]
    rw [if_pos hcond]

theorem C8_non_owner_denied_witness :
    payment_entry ⟨"", "", "", true⟩ (Except.ok "sid") sampleDB
        (some bobUser) ⟨some 1, some 60, some "2024-01-01", ""⟩ =
      (sampleDB, "You are not authorized to add payment for this loan.", []) ∧
    loan_download sampleDB (some bobUser) 1 =
      DownloadResult.redirect "You are not authorized to download this loan." :=
  C8_non_owner_denied sampleDB bobUser aliceUser sampleLoan 1
    ⟨"", "", "", true⟩ (Except.ok "sid") 60 "2024-01-01" "" rfl rfl
    (by decide) (by decide)

/-- The store and the side-effect trace produced by `payment_entry` do not
depend on the transport outcome, and whenever the trace reaches the
notification step, the committed payment precedes it and is in the final
store. -/
theorem payment_entry_commit_first (cfg : TwilioConfig) (t : Transport)
    (db : DB) (user : Option User) (f : PaymentForm) :
    ((payment_entry cfg t db user f).1,
      (payment_entry cfg t db user f).2.2) =
      ((payment_entry cfg (Except.error "x") db user f).1,
       (payment_entry cfg (Except.error "x") db user f).2.2) ∧
    (∀ ph2, LedgerEvent.notify ph2 ∈ (payment_entry cfg t db user f).2.2 →
      ∃ p, (payment_entry cfg t db user f).2.2 =
          [LedgerEvent.commitPayment p, LedgerEvent.notify ph2] ∧
        p ∈ (payment_entry cfg t db user f).1.payments) := by
  obtain ⟨lid?, amt?, pd?, ph⟩ := f
  cases user with
  | none => simp [payment_entry]
  | some u =>
    cases lid? with
    | none => cases amt? <;> cases pd? <;> simp [payment_entry]
    | some lid =>
      cases amt? with
      | none => cases pd? <;> simp [payment_entry]
      | some amt =>
        cases pd? with
        | none => simp [payment_entry]
        | some pd =>
          cases hfind : db.findLoan lid with
          | none => simp [payment_entry, hfind]
          | some loan =>
            by_cases hc : loan.borrower_id ≠ u.id ∧ u.role ≠ "admin"
            · simp only [payment_entry, hfind]
              rw [if_pos hc, if_pos hc]
              simp
            · by_cases hph : ph ≠ ""
              · simp only [payment_entry, hfind]
                rw [if_neg hc, if_neg hc, if_pos hph, if_pos hph]
                constructor
                · split_ifs <;> rfl
                · intro ph2 hmem
                  have hev : ∀ c : Prop, ∀ inst : Decidable c,
                      ∀ m1 m2 : String, ∀ d : DB,
                      ∀ evs : List LedgerEvent,
                      (if c then (d, m1, evs) else (d, m2, evs)).2.2 = evs := by
                    intro c inst m1 m2 d evs
                    split_ifs <;> rfl
                  rw [hev] at hmem
                  rw [hev]
                  simp only [List.mem_cons, List.not_mem_nil, or_false,
                    List.mem_singleton] at hmem
                  rcases hmem with h | h
                  · exact absurd h (by simp)
                  · have hph2 : ph2 = ph := by
                      injection h
                    subst hph2
                    refine ⟨⟨lid, amt, pd⟩, rfl, ?_⟩
                    have hdb : ∀ c : Prop, ∀ inst : Decidable c,
                        ∀ m1 m2 : String, ∀ d : DB,
                        ∀ evs : List LedgerEvent,
                        (if c then (d, m1, evs) else (d, m2, evs)).1 = d := by
                      intro c inst m1 m2 d evs
                      split_ifs <;> rfl
                    rw [hdb]
                    simp
              · simp only [payment_entry, hfind]
                rw [if_neg hc, if_neg hc, if_neg hph, if_neg hph]
                simp

/-- The store and the side-effect trace produced by `create_loan` do not
depend on the transport outcome, and whenever the trace reaches the
notification step, the committed loan precedes it and is in the final
store. -/
theorem create_loan_commit_first (cfg : TwilioConfig) (t : Transport)
    (db : DB) (user : Option User) (f : LoanForm) :
    ((create_loan cfg t db user f).1,
      (create_loan cfg t db user f).2.2) =
      ((create_loan cfg (Except.error "x") db user f).1,
       (create_loan cfg (Except.error "x") db user f).2.2) ∧
    (∀ ph2, LedgerEvent.notify ph2 ∈ (create_loan cfg t db user f).2.2 →
      ∃ l, (create_loan cfg t db user f).2.2 =
          [LedgerEvent.commitLoan l, LedgerEvent.notify ph2] ∧
        l ∈ (create_loan cfg t db user f).1.loans) := by
  obtain ⟨P, R, n, ph⟩ := f
  cases user with
  | none => simp [create_loan]
  | some u =>
    cases hemi : calculate_emi P R n with
    | error e => simp [create_loan, hemi]
    | ok emi_value =>
      by_cases hph : ph ≠ ""
      · simp only [create_loan, hemi]
        rw [if_pos hph, if_pos hph]
        constructor
        · split_ifs <;> rfl
        · intro ph2 hmem
          have hev : ∀ c : Prop, ∀ inst : Decidable c,
              ∀ m1 m2 : String, ∀ d : DB, ∀ evs : List LedgerEvent,
              (if c then (d, m1, evs) else (d, m2, evs)).2.2 = evs := by
            intro c inst m1 m2 d evs
            split_ifs <;> rfl
          rw [hev] at hmem
          rw [hev]
          simp only [List.mem_cons, List.not_mem_nil, or_false,
            List.mem_singleton] at hmem
          rcases hmem with h | h
          · exact absurd h (by simp)
          · have hph2 : ph2 = ph := by injection h
            subst hph2
            refine ⟨_, rfl, ?_⟩
            have hdb : ∀ c : Prop, ∀ inst : Decidable c,
                ∀ m1 m2 : String, ∀ d : DB, ∀ evs : List LedgerEvent,
                (if c then (d, m1, evs) else (d, m2, evs)).1 = d := by
              intro c inst m1 m2 d evs
              split_ifs <;> rfl
            rw [hdb]
            simp
      · simp only [create_loan, hemi]
        rw [if_neg hph, if_neg hph]
        simp

/-- C9: in every loan-creation and payment-entry request that reaches the
notification step, the ledger write is committed before the dispatcher is
invoked — the side-effect trace is `commit` then `notify`, with the
committed row in the final store — and whatever the dispatcher returns,
the resulting store and trace are identical (only the flash message can
differ): a dispatch failure never rolls the record back. -/
theorem C9_commit_before_notify (cfg : TwilioConfig) (t1 t2 : Transport)
    (db : DB) (user : Option User) (pform : PaymentForm) (lform : LoanForm) :
    (payment_entry cfg t1 db user pform).1 =
      (payment_entry cfg t2 db user pform).1 ∧
    (payment_entry cfg t1 db user pform).2.2 =
      (payment_entry cfg t2 db user pform).2.2 ∧
    (create_loan cfg t1 db user lform).1 =
      (create_loan cfg t2 db user lform).1 ∧
    (create_loan cfg t1 db user lform).2.2 =
      (create_loan cfg t2 db user lform).2.2 ∧
    (∀ ph, LedgerEvent.notify ph ∈ (payment_entry cfg t1 db user pform).2.2 →
      ∃ p, (payment_entry cfg t1 db user pform).2.2 =
          [LedgerEvent.commitPayment p, LedgerEvent.notify ph] ∧
        p ∈ (payment_entry cfg t1 db user pform).1.payments) ∧
    (∀ ph, LedgerEvent.notify ph ∈ (create_loan cfg t1 db user lform).2.2 →
      ∃ l, (create_loan cfg t1 db user lform).2.2 =
          [LedgerEvent.commitLoan l, LedgerEvent.notify ph] ∧
        l ∈ (create_loan cfg t1 db user lform).1.loans) := by
  have hp1 := payment_entry_commit_first cfg t1 db user pform
  have hp2 := payment_entry_commit_first cfg t2 db user pform
  have hl1 := create_loan_commit_first cfg t1 db user lform
  have hl2 := create_loan_commit_first cfg t2 db user lform
  have hp := hp1.1.trans hp2.1.symm
  have hl := hl1.1.trans hl2.1.symm
  rw [Prod.mk.injEq] at hp hl
  exact ⟨hp.1, hp.2, hl.1, hl.2, hp1.2, hl1.2⟩

theorem C9_commit_before_notify_witness :
    (payment_entry ⟨"", "", "", true⟩ (Except.ok "sid") sampleDB
        (some aliceUser) ⟨some 1, some 60, some "2024-01-01", "+1555"⟩).1 =
      (payment_entry ⟨"", "", "", true⟩ (Except.error "down") sampleDB
        (some aliceUser) ⟨some 1, some 60, some "2024-01-01", "+1555"⟩).1 ∧
    (payment_entry ⟨"", "", "", true⟩ (Except.ok "sid") sampleDB
        (some aliceUser) ⟨some 1, some 60, some "2024-01-01", "+1555"⟩).2.2 =
      (payment_entry ⟨"", "", "", true⟩ (Except.error "down") sampleDB
        (some aliceUser) ⟨some 1, some 60, some "2024-01-01", "+1555"⟩).2.2 ∧
    (create_loan ⟨"", "", "", true⟩ (Except.ok "sid") sampleDB
        (some aliceUser) ⟨100000, 10, 12, "+1555"⟩).1 =
      (create_loan ⟨"", "", "", true⟩ (Except.error "down") sampleDB
        (some aliceUser) ⟨100000, 10, 12, "+1555"⟩).1 ∧
    (create_loan ⟨"", "", "", true⟩ (Except.ok "sid") sampleDB
        (some aliceUser) ⟨100000, 10, 12, "+1555"⟩).2.2 =
      (create_loan ⟨"", "", "", true⟩ (Except.error "down") sampleDB
        (some aliceUser) ⟨100000, 10, 12, "+1555"⟩).2.2 ∧
    (∀ ph, LedgerEvent.notify ph ∈
        (payment_entry ⟨"", "", "", true⟩ (Except.ok "sid") sampleDB
          (some aliceUser) ⟨some 1, some 60, some "2024-01-01", "+1555"⟩).2.2 →
      ∃ p, (payment_entry ⟨"", "", "", true⟩ (Except.ok "sid") sampleDB
            (some aliceUser) ⟨some 1, some 60, some "2024-01-01", "+1555"⟩).2.2 =
          [LedgerEvent.commitPayment p, LedgerEvent.notify ph] ∧
        p ∈ (payment_entry ⟨"", "", "", true⟩ (Except.ok "sid") sampleDB
            (some aliceUser)
            ⟨some 1, some 60, some "2024-01-01", "+1555"⟩).1.payments) ∧
    (∀ ph, LedgerEvent.notify ph ∈
        (create_loan ⟨"", "", "", true⟩ (Except.ok "sid") sampleDB
          (some aliceUser) ⟨100000, 10, 12, "+1555"⟩).2.2 →
      ∃ l, (create_loan ⟨"", "", "", true⟩ (Except.ok "sid") sampleDB
            (some aliceUser) ⟨100000, 10, 12, "+1555"⟩).2.2 =
          [LedgerEvent.commitLoan l, LedgerEvent.notify ph] ∧
        l ∈ (create_loan ⟨"", "", "", true⟩ (Except.ok "sid") sampleDB
            (some aliceUser) ⟨100000, 10, 12, "+1555"⟩).1.loans) :=
  C9_commit_before_notify ⟨"", "", "", true⟩ (Except.ok "sid")
    (Except.error "down") sampleDB (some aliceUser)
    ⟨some 1, some 60, some "2024-01-01", "+1555"⟩ ⟨100000, 10, 12, "+1555"⟩

/-- C10: the loan detail view performs no authentication or ownership
check — for every store and loan id, the loan data it renders (loan
fields, borrower name, payment history, total paid, remaining balance)
is identical for every caller: owner, unrelated borrower, admin, or no
session at all. -/
theorem C10_loan_view_caller_independent (db : DB) (loan_id : ℤ)
    (u1 u2 : Option User) :
    Except.map LoanViewPage.loanData (loan_view db u1 loan_id) =
      Except.map LoanViewPage.loanData (loan_view db u2 loan_id) := by
  cases hfind : db.findLoan loan_id with
  | none => simp [loan_view, hfind]
  | some loan =>
    cases hfu : db.findUser loan.borrower_id with
    | none => simp [loan_view, hfind, hfu]
    | some borrower =>
      simp [loan_view, hfind, hfu, Except.map, LoanViewPage.loanData]

end LoanMgmt
